import Mathlib

/-!
Verification of the concurrent multi-model orchestration engine behind
`src/app.py` (LLM Nexus). The visible source file is the presentation
layer; the four collaborators it calls (`check_limit`, `choose_models`,
`run_parallel`, `generate_report`) are specified but not present in the
repository, so they are modelled here from the specification, while the
control flow of `main` in `src/app.py` is embedded from the source.
-/

namespace LLMNexus

/-- Capability tags of a model (spec §3, ModelSpec). -/
inductive Tag
  | GENERAL
  | CODE
  | FAST
  | CHEAP
deriving DecidableEq, Repr

/-- The recognized objectives (spec §3). -/
inductive Objective
  | GENERAL
  | CODING
  | FAST_RESPONSE
  | COST_SAVING
deriving DecidableEq, Repr

/-- A catalog entry: identifier plus capability tags (spec §3, ModelSpec);
the client handle is irrelevant to the properties proved here. -/
structure ModelSpec where
  id : String
  tags : List Tag
deriving DecidableEq, Repr

/-- Request-level router errors (spec §7). -/
inductive RouterError
  | InvalidObjective
  | EmptyCatalog
deriving DecidableEq, Repr

/-- Parsing of the raw objective strings offered by the UI selectbox in
`src/app.py` (line 151) into the recognized objective set; any other
string is unrecognized. -/
def parseObjective : String → Option Objective
  | "General" => some Objective.GENERAL
  | "Coding" => some Objective.CODING
  | "Fast Response" => some Objective.FAST_RESPONSE
  | "Cost Saving" => some Objective.COST_SAVING
  | _ => none

/-- Modelled from the spec: the objective → capability-tag priority table
of ModelRouter (§4.2), an explicitly enumerated fixed list per objective,
with GENERAL as the fallback tier. -/
def priorityTags : Objective → List Tag
  | Objective.GENERAL => [Tag.GENERAL]
  | Objective.CODING => [Tag.CODE, Tag.GENERAL]
  | Objective.FAST_RESPONSE => [Tag.FAST, Tag.GENERAL]
  | Objective.COST_SAVING => [Tag.CHEAP, Tag.GENERAL]

/-- Modelled from the spec: the fallback filter of ModelRouter (§4.2) —
filter the catalog for models matching the top-priority tag, falling back
to the next tag if none match, until a non-empty tier is found or the
tag list is exhausted (empty result). -/
def firstNonEmptyTier (catalog : List ModelSpec) : List Tag → List ModelSpec
  | [] => []
  | t :: rest =>
    let tier := catalog.filter (fun m => t ∈ m.tags)
    if tier.isEmpty then firstNonEmptyTier catalog rest else tier

/-- Modelled from the spec: ModelRouter.Select on a recognized objective
(§4.2) — deterministic pure mapping; fails with EmptyCatalog when no
model matches any fallback tier; caps the cohort at the configured
maximum. -/
def selectObj (maxCohort : Nat) (catalog : List ModelSpec) (obj : Objective) :
    Except RouterError (List ModelSpec) :=
  let tier := firstNonEmptyTier catalog (priorityTags obj)
  if tier.isEmpty then Except.error RouterError.EmptyCatalog
  else Except.ok (tier.take maxCohort)

/-- Modelled from the spec: ModelRouter.Select (§4.2) on a raw objective
value — an unrecognized objective fails with InvalidObjective rather than
silently defaulting. -/
def select (maxCohort : Nat) (catalog : List ModelSpec) (raw : String) :
    Except RouterError (List ModelSpec) :=
  match parseObjective raw with
  | none => Except.error RouterError.InvalidObjective
  | some obj => selectObj maxCohort catalog obj

/-- What one backend call would deliver, as observed by the dispatcher:
either a response text arriving after a given latency, or a transport or
backend error surfacing after a given latency (spec §6, Backend model
call). -/
inductive BackendResult
  | ok (text : String) (latency_ms : Nat)
  | err (cause : String) (latency_ms : Nat)
deriving DecidableEq, Repr

/-- Per-model failure kinds (spec §7). -/
inductive ErrorKind
  | Timeout
  | BackendError (cause : String)
deriving DecidableEq, Repr

/-- Per-model dispatch outcome (spec §3): response_text present iff
success, error_kind present iff failure. -/
structure DispatchOutcome where
  model_id : String
  response_text : Option String
  latency_ms : Nat
  error_kind : Option ErrorKind
deriving DecidableEq, Repr

/-- Modelled from the spec: how the Dispatcher resolves one cohort
member's call against the shared deadline (§4.3) — a result arriving
within the deadline is recorded as-is (success or BackendError with its
measured latency); a straggler past the deadline is force-resolved to
Timeout with no response_text. -/
def callOutcome (deadline : Nat) (mid : String) : BackendResult → DispatchOutcome
  | BackendResult.ok text lat =>
    if lat ≤ deadline then ⟨mid, some text, lat, none⟩
    else ⟨mid, none, deadline, some ErrorKind.Timeout⟩
  | BackendResult.err cause lat =>
    if lat ≤ deadline then ⟨mid, none, lat, some (ErrorKind.BackendError cause)⟩
    else ⟨mid, none, deadline, some ErrorKind.Timeout⟩

/-- Modelled from the spec: Dispatcher.Run (§4.3) — one independent call
per cohort member under the shared deadline, collected into a mapping
keyed by model_id. The backend collaborator (out of scope, §6) is an
oracle from prompt and model id to that call's result; concurrency is
modelled by each member's outcome depending only on its own oracle
entry. -/
def run (prompt : String) (deadline : Nat) (cohort : List ModelSpec)
    (backend : String → String → BackendResult) : List (String × DispatchOutcome) :=
  cohort.map (fun m => (m.id, callOutcome deadline m.id (backend prompt m.id)))

/-- Per-user fixed-window rate state (spec §3, RateState). -/
structure RateState where
  window_start : Nat
  request_count : Nat
deriving DecidableEq, Repr

/-- Rate-limit configuration: ceiling per window and window length
(externally configured, spec §6). -/
structure RateConfig where
  ceiling : Nat
  window : Nat
deriving DecidableEq, Repr

/-- Modelled from the spec: RateLimiter.Admit (§4.1) — a fixed-window
counter. Absence of prior state is a fresh window with count 0; an
expired window resets the count to 1 and restarts the window; otherwise
the count is incremented but capped just past the ceiling so that
hammering cannot grow it unboundedly; the call admits iff the resulting
count is at most the ceiling. Total by construction: it never fails with
an error. -/
def check_limit (cfg : RateConfig) (now : Nat) (st : Option RateState) : Bool × RateState :=
  match st with
  | none => (decide (1 ≤ cfg.ceiling), ⟨now, 1⟩)
  | some s =>
    if s.window_start + cfg.window ≤ now then
      (decide (1 ≤ cfg.ceiling), ⟨now, 1⟩)
    else
      let c := min (s.request_count + 1) (cfg.ceiling + 1)
      (decide (c ≤ cfg.ceiling), ⟨s.window_start, c⟩)

/-- A sequence of Admit calls for one user at the given timestamps,
threading the rate state; returns the admission decisions in order and
the final state. -/
def checkLimitSeq (cfg : RateConfig) (times : List Nat) (st : Option RateState) :
    List Bool × Option RateState :=
  match times with
  | [] => ([], st)
  | t :: rest =>
    let p := check_limit cfg t st
    let q := checkLimitSeq cfg rest (some p.2)
    (p.1 :: q.1, q.2)

/-- Whether a dispatch outcome is a success (spec §3: error_kind present
iff failure). -/
def isSuccess (o : DispatchOutcome) : Bool := o.error_kind.isNone

/-- One appended metrics record (spec §3, MetricsRecord). -/
structure MetricsRecord where
  timestamp : Nat
  user : String
  model_id : String
  latency_ms : Nat
  response_length : Nat
  success_flag : Bool
  estimated_cost : ℚ
deriving DecidableEq, Repr

/-- The summary returned to the caller (spec §4.4). -/
structure Summary where
  total_cost : ℚ
  avg_latency_ms : ℚ
  success_count : Nat
  failure_count : Nat
deriving DecidableEq, Repr

/-- Response length of an outcome: character count of the response text,
0 when absent (spec §4.4). -/
def responseLength (o : DispatchOutcome) : Nat :=
  match o.response_text with
  | some t => t.length
  | none => 0

/-- Modelled from the spec: MetricsRecorder.Record (§4.4) — one record
per outcome, successes and failures alike, with zero-valued cost and
length fields for failures; the pricing table is an external function of
model identifier and response length. Returns the records together with
the Summary: total estimated cost across the cohort, average latency
across successful outcomes (zero if none succeeded), success and failure
counts. -/
def record (price : String → Nat → ℚ) (now : Nat) (user : String)
    (outcomes : List DispatchOutcome) : List MetricsRecord × Summary :=
  let recs := outcomes.map (fun o =>
    if isSuccess o then
      ⟨now, user, o.model_id, o.latency_ms, responseLength o, true,
        price o.model_id (responseLength o)⟩
    else ⟨now, user, o.model_id, o.latency_ms, 0, false, 0⟩)
  let succ := outcomes.filter isSuccess
  let avg : ℚ :=
    if succ.length = 0 then 0
    else (succ.map (fun o => (o.latency_ms : ℚ))).sum / (succ.length : ℚ)
  (recs, ⟨(recs.map MetricsRecord.estimated_cost).sum, avg,
          succ.length, outcomes.length - succ.length⟩)

/-- Observable events of one "Execute Query" click in `main` of
`src/app.py`: the four engine operations plus the renders the
presentation layer performs around them. -/
inductive Event
  | checkEv (allowed : Bool)
  | warnEv (msg : String)
  | selectEv (ids : List String)
  | renderModels (ids : List String)
  | dispatchEv (keys : List String)
  | renderColumns (n : Nat)
  | renderResponse (mid : String) (text : Option String)
  | renderJson
  | recordEv
  | renderReportEv
deriving DecidableEq, Repr

/-- Which events are invocations of the four engine operations
(Admit, Select, Run, Record), as opposed to renders. -/
def isEngineOp : Event → Bool
  | Event.checkEv _ => true
  | Event.selectEv _ => true
  | Event.dispatchEv _ => true
  | Event.recordEv => true
  | _ => false

/-- The truthiness test of prompt.strip() in `src/app.py` (line 176): a
prompt is blank iff every character is whitespace, i.e. stripping leaves
the empty string. -/
def isBlank (s : String) : Bool := s.data.all Char.isWhitespace

/-- Configuration of the engine as wired by the app: rate limit, cohort
cap, catalog, dispatch deadline (spec §6, externally supplied). -/
structure AppConfig where
  rate : RateConfig
  maxCohort : Nat
  catalog : List ModelSpec
  deadline : Nat

/-- The control flow of `main` in `src/app.py` (lines 171-233) for one
button click, embedded as the trace of events it produces: a denied
`check_limit` stops with an error render (lines 172-174); an empty
prompt stops with a warning (lines 176-178); otherwise `choose_models`
(line 183) and its display (line 184), `run_parallel` (line 189), the
visual-comparison columns over the responses (lines 209-220), the raw
JSON tab (line 223), `generate_report` (line 227), and the report
metrics (lines 231-233). A router failure raises out of the page
(modelled as a terminal error render). -/
def mainTrace (cfg : AppConfig) (now : Nat) (rateSt : Option RateState)
    (prompt task : String) (backend : String → String → BackendResult) :
    List Event :=
  let allowed := (check_limit cfg.rate now rateSt).1
  if allowed = false then
    [Event.checkEv false, Event.warnEv "rate_limit_error"]
  else if isBlank prompt = true then
    [Event.checkEv true, Event.warnEv "empty_prompt"]
  else
    match select cfg.maxCohort cfg.catalog task with
    | Except.error _ => [Event.checkEv true, Event.warnEv "router_exception"]
    | Except.ok cohort =>
      let responses := run prompt cfg.deadline cohort backend
      [Event.checkEv true,
       Event.selectEv (cohort.map ModelSpec.id),
       Event.renderModels (cohort.map ModelSpec.id),
       Event.dispatchEv (responses.map Prod.fst),
       Event.renderColumns responses.length]
      ++ responses.map (fun r => Event.renderResponse r.1 r.2.response_text)
      ++ [Event.renderJson, Event.recordEv, Event.renderReportEv]

/-! ### Claim theorems -/

/-- C1: For every prompt, every cohort of size K, and every deadline,
Dispatcher.Run returns a mapping with exactly one DispatchOutcome per
cohort member, keyed by the K model identifiers, with no missing and no
extra keys, regardless of how many of the individual backend calls time
out or error. -/
theorem run_returns_one_outcome_per_member (prompt : String) (deadline : Nat)
    (cohort : List ModelSpec) (backend : String → String → BackendResult) :
    (run prompt deadline cohort backend).map Prod.fst = cohort.map ModelSpec.id
    ∧ (run prompt deadline cohort backend).length = cohort.length := by
  constructor
  · simp [run, List.map_map]
  · simp [run]

/-- C2: For a cohort member of a Dispatcher.Run call, its entry in the
returned mapping is determined by its own backend call only (two oracles
agreeing on this member give it the same outcome, so other members'
timeouts cannot affect it); if the backend call exceeds the shared
deadline the outcome carries error_kind = Timeout and no response_text,
and if it returns before the deadline the outcome is a success with
latency_ms at most the deadline. -/
theorem run_deadline_semantics (prompt : String) (deadline : Nat)
    (cohort : List ModelSpec) (backend backend2 : String → String → BackendResult)
    (m : ModelSpec) (hm : m ∈ cohort)
    (hagree : backend prompt m.id = backend2 prompt m.id) :
    ((m.id, callOutcome deadline m.id (backend prompt m.id))
        ∈ run prompt deadline cohort backend)
    ∧ callOutcome deadline m.id (backend prompt m.id)
        = callOutcome deadline m.id (backend2 prompt m.id)
    ∧ (∀ text lat, backend prompt m.id = BackendResult.ok text lat →
        (deadline < lat →
          (callOutcome deadline m.id (backend prompt m.id)).error_kind
              = some ErrorKind.Timeout
          ∧ (callOutcome deadline m.id (backend prompt m.id)).response_text = none)
        ∧ (lat ≤ deadline →
          (callOutcome deadline m.id (backend prompt m.id)).error_kind = none
          ∧ (callOutcome deadline m.id (backend prompt m.id)).response_text = some text
          ∧ (callOutcome deadline m.id (backend prompt m.id)).latency_ms ≤ deadline))
    ∧ (∀ cause lat, backend prompt m.id = BackendResult.err cause lat →
        deadline < lat →
          (callOutcome deadline m.id (backend prompt m.id)).error_kind
              = some ErrorKind.Timeout
          ∧ (callOutcome deadline m.id (backend prompt m.id)).response_text = none) := by
  refine ⟨?_, by rw [hagree], ?_, ?_⟩
  · exact List.mem_map.2 ⟨m, hm, rfl⟩
  · intro text lat hok
    rw [hok]
    constructor
    · intro hlate
      simp [callOutcome, Nat.not_le.2 hlate]
    · intro hin
      simp [callOutcome, hin]
  · intro cause lat herr hlate
    rw [herr]
    simp [callOutcome, Nat.not_le.2 hlate]

/-- Witness for C2 at a concrete input: a single-member cohort whose
backend call takes 100 ms against a 50 ms deadline is force-resolved to
a Timeout outcome. -/
theorem run_deadline_semantics_witness :
    (callOutcome 50 "m1" (BackendResult.ok "hi" 100)).error_kind
      = some ErrorKind.Timeout :=
  (((run_deadline_semantics "p" 50 [⟨"m1", [Tag.GENERAL]⟩]
      (fun _ _ => BackendResult.ok "hi" 100) (fun _ _ => BackendResult.ok "hi" 100)
      ⟨"m1", [Tag.GENERAL]⟩ (by simp) rfl).2.2.1 "hi" 100 rfl).1 (by norm_num)).1

/-- Within one window (no call reaches the window's end), a run of Admit
calls starting from a stored count of c answers the i-th call with
(c + i + 1 ≤ ceiling): the capped counter never changes the decision. -/
theorem checkLimitSeq_within_window (cfg : RateConfig) (t0 : Nat) (times : List Nat) (c : Nat)
    (h : ∀ t ∈ times, t < t0 + cfg.window) :
    (checkLimitSeq cfg times (some ⟨t0, c⟩)).1
      = (List.range times.length).map (fun i => decide (c + i + 1 ≤ cfg.ceiling)) := by
  induction times generalizing c with
  | nil => simp [checkLimitSeq]
  | cons t rest ih =>
    have ht : ¬ (t0 + cfg.window ≤ t) := Nat.not_le.2 (h t (by simp))
    have hrest : ∀ u ∈ rest, u < t0 + cfg.window := fun u hu => h u (by simp [hu])
    simp only [checkLimitSeq, check_limit, if_neg ht]
    rw [ih (min (c + 1) (cfg.ceiling + 1)) hrest]
    simp only [List.length_cons]
    rw [List.range_succ_eq_map, List.map_cons, List.map_map]
    exact List.cons_eq_cons.2 ⟨decide_eq_decide.2 (by omega),
      List.map_congr_left fun i _ => decide_eq_decide.2 (by omega)⟩

/-- C3: For every user, Admit returns true for each of the first N calls
within one fixed window (N the configured ceiling) and false for the
(N+1)-th call and beyond in that same window; once the window elapses
the state resets and the call behaves exactly like a fresh user; a user
with no prior state is a fresh window with count 0, incremented to 1 by
the call. Admit is a total function: it never fails with an error. -/
theorem check_limit_fixed_window (cfg : RateConfig) (t0 : Nat) (times : List Nat)
    (h : ∀ t ∈ times, t < t0 + cfg.window) :
    (checkLimitSeq cfg (t0 :: times) none).1
      = (List.range (times.length + 1)).map (fun i => decide (i + 1 ≤ cfg.ceiling))
    ∧ (∀ s t, s.window_start + cfg.window ≤ t → check_limit cfg t (some s) = check_limit cfg t none)
    ∧ (∀ t, check_limit cfg t none = (decide (0 + 1 ≤ cfg.ceiling), ⟨t, 0 + 1⟩)) := by
  refine ⟨?_, ?_, ?_⟩
  · simp only [checkLimitSeq, check_limit]
    rw [checkLimitSeq_within_window cfg t0 times 1 h]
    rw [List.range_succ_eq_map, List.map_cons, List.map_map]
    exact List.cons_eq_cons.2 ⟨decide_eq_decide.2 (by omega),
      List.map_congr_left fun i _ => decide_eq_decide.2 (by omega)⟩
  · intro s t hexp
    simp [check_limit, hexp]
  · intro t
    simp [check_limit]

/-- Witness for C3 at a concrete input: ceiling 2, window 10, three calls
at times 0, 1, 2 — the first two are admitted, the third is denied. -/
theorem check_limit_fixed_window_witness :
    (checkLimitSeq ⟨2, 10⟩ [0, 1, 2] none).1
      = (List.range 3).map (fun i => decide (i + 1 ≤ 2)) :=
  (check_limit_fixed_window ⟨2, 10⟩ 0 [1, 2] (by decide)).1

/-- The fallback filter only ever selects models out of the catalog, in
catalog order. -/
theorem firstNonEmptyTier_sublist (catalog : List ModelSpec) (tags : List Tag) :
    List.Sublist (firstNonEmptyTier catalog tags) catalog := by
  induction tags with
  | nil => simp [firstNonEmptyTier]
  | cons t rest ih =>
    simp only [firstNonEmptyTier]
    split
    · exact ih
    · exact List.filter_sublist catalog

/-- Shape of a successful selectObj result: the cohort is the first
non-empty fallback tier capped at the configured maximum, and that tier
is non-empty. -/
theorem selectObj_ok_shape (maxCohort : Nat) (catalog : List ModelSpec)
    (obj : Objective) (cohort : List ModelSpec)
    (hok : selectObj maxCohort catalog obj = Except.ok cohort) :
    cohort = (firstNonEmptyTier catalog (priorityTags obj)).take maxCohort
    ∧ firstNonEmptyTier catalog (priorityTags obj) ≠ [] := by
  unfold selectObj at hok
  by_cases he : (firstNonEmptyTier catalog (priorityTags obj)).isEmpty
  · rw [if_pos he] at hok
    exact absurd hok (fun hc => Except.noConfusion hc)
  · rw [if_neg he] at hok
    exact ⟨(Except.ok.injEq _ _ ▸ hok).symm, fun hnil => he (by simp [hnil])⟩

/-- A successful selectObj cohort is non-empty as soon as the configured
maximum is at least 1. -/
theorem selectObj_ok_nonempty (maxCohort : Nat) (catalog : List ModelSpec)
    (obj : Objective) (cohort : List ModelSpec) (hmax : 1 ≤ maxCohort)
    (hok : selectObj maxCohort catalog obj = Except.ok cohort) :
    cohort ≠ [] := by
  obtain ⟨hc, hne⟩ := selectObj_ok_shape maxCohort catalog obj cohort hok
  cases htier : firstNonEmptyTier catalog (priorityTags obj) with
  | nil => exact absurd htier hne
  | cons x xs =>
    rw [hc, htier]
    cases maxCohort with
    | zero => exact absurd hmax (by norm_num)
    | succ k => simp [List.take]

/-- C5: For every objective in the recognized set {GENERAL, CODING,
FAST_RESPONSE, COST_SAVING}, a cohort returned by ModelRouter.Select is
non-empty, of size at most the configured maximum, and free of duplicate
model identifiers (given a duplicate-free catalog and a positive
configured maximum). -/
theorem select_recognized_cohort (maxCohort : Nat) (catalog : List ModelSpec)
    (obj : Objective) (cohort : List ModelSpec) (hmax : 1 ≤ maxCohort)
    (hnodup : (catalog.map ModelSpec.id).Nodup)
    (hok : selectObj maxCohort catalog obj = Except.ok cohort) :
    cohort ≠ [] ∧ cohort.length ≤ maxCohort ∧ (cohort.map ModelSpec.id).Nodup := by
  obtain ⟨hc, _⟩ := selectObj_ok_shape maxCohort catalog obj cohort hok
  refine ⟨selectObj_ok_nonempty maxCohort catalog obj cohort hmax hok, ?_, ?_⟩
  · rw [hc, List.length_take]
    exact min_le_left _ _
  · have hsub : List.Sublist cohort catalog := by
      rw [hc]
      exact (List.take_sublist _ _).trans (firstNonEmptyTier_sublist catalog _)
    exact List.Nodup.sublist (hsub.map ModelSpec.id) hnodup

/-- Witness for C5 at a concrete input: objective CODING over a catalog
with two CODE models and one GENERAL model, maximum 3, yields the
guarantees on the concrete cohort Select returns. -/
theorem select_recognized_cohort_witness :
    [(⟨"c1", [Tag.CODE]⟩ : ModelSpec), ⟨"c2", [Tag.CODE]⟩] ≠ []
    ∧ [(⟨"c1", [Tag.CODE]⟩ : ModelSpec), ⟨"c2", [Tag.CODE]⟩].length ≤ 3
    ∧ ([(⟨"c1", [Tag.CODE]⟩ : ModelSpec), ⟨"c2", [Tag.CODE]⟩].map ModelSpec.id).Nodup :=
  select_recognized_cohort 3
    [⟨"c1", [Tag.CODE]⟩, ⟨"c2", [Tag.CODE]⟩, ⟨"g1", [Tag.GENERAL]⟩]
    Objective.CODING [⟨"c1", [Tag.CODE]⟩, ⟨"c2", [Tag.CODE]⟩]
    (by norm_num) (by decide) rfl

/-- C6: For every unrecognized objective value, ModelRouter.Select fails
with InvalidObjective; it never silently defaults and never silently
returns a partial or empty cohort. -/
theorem select_unrecognized_invalid (maxCohort : Nat) (catalog : List ModelSpec)
    (raw : String) (h : parseObjective raw = none) :
    select maxCohort catalog raw = Except.error RouterError.InvalidObjective
    ∧ ∀ cohort, select maxCohort catalog raw ≠ Except.ok cohort := by
  have hsel : select maxCohort catalog raw = Except.error RouterError.InvalidObjective := by
    unfold select
    rw [h]
  exact ⟨hsel, fun cohort hc => by rw [hsel] at hc; exact Except.noConfusion hc⟩

/-- Witness for C6 at a concrete input: the objective string "Banana" is
unrecognized and Select rejects it with InvalidObjective. -/
theorem select_unrecognized_invalid_witness :
    select 3 [⟨"m1", [Tag.GENERAL]⟩] "Banana"
      = Except.error RouterError.InvalidObjective :=
  (select_unrecognized_invalid 3 [⟨"m1", [Tag.GENERAL]⟩] "Banana" rfl).1

/-- The estimated-cost column of the records written by Record: the
priced cost for successes, zero for failures. -/
theorem record_cost_map (price : String → Nat → ℚ) (now : Nat) (user : String)
    (outcomes : List DispatchOutcome) :
    (record price now user outcomes).1.map MetricsRecord.estimated_cost
      = outcomes.map (fun o =>
          if isSuccess o then price o.model_id (responseLength o) else 0) := by
  simp only [record, List.map_map]
  refine List.map_congr_left fun o _ => ?_
  by_cases h : isSuccess o <;> simp [h]

/-- C7: Record, given outcomes containing 2 successes and 1 failure,
writes exactly 3 metrics records — one per outcome, failures included
with zero-valued cost and length fields — and returns a Summary with
success_count = 2, failure_count = 1, and average latency computed only
over the 2 successful outcomes. -/
theorem record_two_success_one_failure (price : String → Nat → ℚ) (now : Nat)
    (user : String) (outcomes : List DispatchOutcome)
    (hlen : outcomes.length = 3)
    (hs : (outcomes.filter isSuccess).length = 2) :
    (record price now user outcomes).1.length = 3
    ∧ (record price now user outcomes).2.success_count = 2
    ∧ (record price now user outcomes).2.failure_count = 1
    ∧ (record price now user outcomes).2.avg_latency_ms
        = ((outcomes.filter isSuccess).map (fun o => (o.latency_ms : ℚ))).sum / 2
    ∧ (∀ r ∈ (record price now user outcomes).1,
        r.success_flag = false → r.estimated_cost = 0 ∧ r.response_length = 0) := by
  refine ⟨by simp [record, hlen], by simp [record, hs], ?_, ?_, ?_⟩
  · simp [record, hs, hlen]
  · simp [record, hs]
  · intro r hr hflag
    simp only [record, List.mem_map] at hr
    obtain ⟨o, _, ho⟩ := hr
    by_cases h : isSuccess o
    · rw [if_pos h] at ho
      rw [← ho] at hflag
      exact absurd hflag (by simp)
    · rw [if_neg h] at ho
      rw [← ho]
      exact ⟨rfl, rfl⟩

/-- Witness for C7 at a concrete input: two successful outcomes (100 ms
and 200 ms) and one Timeout outcome yield 3 records and the 2/1 summary
with average latency 150 ms. -/
theorem record_two_success_one_failure_witness :
    (record (fun _ _ => 0) 7 "alice"
        [⟨"m1", some "hello", 100, none⟩, ⟨"m2", some "hi", 200, none⟩,
         ⟨"m3", none, 0, some ErrorKind.Timeout⟩]).1.length = 3
    ∧ (record (fun _ _ => 0) 7 "alice"
        [⟨"m1", some "hello", 100, none⟩, ⟨"m2", some "hi", 200, none⟩,
         ⟨"m3", none, 0, some ErrorKind.Timeout⟩]).2.success_count = 2
    ∧ (record (fun _ _ => 0) 7 "alice"
        [⟨"m1", some "hello", 100, none⟩, ⟨"m2", some "hi", 200, none⟩,
         ⟨"m3", none, 0, some ErrorKind.Timeout⟩]).2.failure_count = 1 := by
  have h := record_two_success_one_failure (fun _ _ => 0) 7 "alice"
      [⟨"m1", some "hello", 100, none⟩, ⟨"m2", some "hi", 200, none⟩,
       ⟨"m3", none, 0, some ErrorKind.Timeout⟩] rfl (by decide)
  exact ⟨h.1, h.2.1, h.2.2.1⟩

/-- Closed form of the Summary returned by Record, as a function of the
outcomes alone. -/
theorem record_summary_closed (price : String → Nat → ℚ) (now : Nat) (user : String)
    (outcomes : List DispatchOutcome) :
    (record price now user outcomes).2
      = ⟨(outcomes.map (fun o =>
            if isSuccess o then price o.model_id (responseLength o) else 0)).sum,
         if (outcomes.filter isSuccess).length = 0 then 0
         else ((outcomes.filter isSuccess).map (fun o => (o.latency_ms : ℚ))).sum
              / ((outcomes.filter isSuccess).length : ℚ),
         (outcomes.filter isSuccess).length,
         outcomes.length - (outcomes.filter isSuccess).length⟩ := by
  have h1 := record_cost_map price now user outcomes
  simp only [record] at h1 ⊢
  rw [Summary.mk.injEq]
  exact ⟨by rw [h1], rfl, rfl, rfl⟩

/-- C8: The Summary returned by Record is derivable purely from the
outcomes passed in — it is unchanged under any other timestamp or user,
and involves no further backend calls; its estimated cost is the total
over the cohort of a function of each model identifier and its response
length (zero for failures), and its average latency is taken across
successful outcomes, zero if none succeeded. -/
theorem summary_pure_of_outcomes (price : String → Nat → ℚ) (now now2 : Nat)
    (user user2 : String) (outcomes : List DispatchOutcome) :
    (record price now user outcomes).2 = (record price now2 user2 outcomes).2
    ∧ (record price now user outcomes).2.total_cost
        = (outcomes.map (fun o =>
            if isSuccess o then price o.model_id (responseLength o) else 0)).sum
    ∧ ((outcomes.filter isSuccess).length = 0 →
        (record price now user outcomes).2.avg_latency_ms = 0)
    ∧ ((outcomes.filter isSuccess).length ≠ 0 →
        (record price now user outcomes).2.avg_latency_ms
          = ((outcomes.filter isSuccess).map (fun o => (o.latency_ms : ℚ))).sum
              / ((outcomes.filter isSuccess).length : ℚ))
    ∧ (record price now user outcomes).2.success_count
        = (outcomes.filter isSuccess).length
    ∧ (record price now user outcomes).2.failure_count
        = outcomes.length - (outcomes.filter isSuccess).length := by
  refine ⟨?_, ?_, ?_, ?_, rfl, rfl⟩
  · rw [record_summary_closed price now user, record_summary_closed price now2 user2]
  · rw [record_summary_closed price now user]
  · intro h0
    rw [record_summary_closed price now user]
    simp [h0]
  · intro h0
    rw [record_summary_closed price now user]
    simp [h0]

/-- Witness for C8 at a concrete input: with no outcomes there are no
successes and the average latency of the Summary is zero. -/
theorem summary_pure_of_outcomes_witness :
    (record (fun _ _ => 0) 0 "alice" []).2.avg_latency_ms = 0 :=
  (summary_pure_of_outcomes (fun _ _ => 0) 0 1 "alice" "bob" []).2.2.1 rfl

/-- Trace of a click denied by the rate limiter: error render, stop. -/
theorem mainTrace_denied_eq (cfg : AppConfig) (now : Nat) (rateSt : Option RateState)
    (prompt task : String) (backend : String → String → BackendResult)
    (h : (check_limit cfg.rate now rateSt).1 = false) :
    mainTrace cfg now rateSt prompt task backend
      = [Event.checkEv false, Event.warnEv "rate_limit_error"] := by
  simp only [mainTrace]
  rw [h, if_pos rfl]

/-- Trace of an admitted click with a blank prompt: warning, stop. -/
theorem mainTrace_emptyPrompt_eq (cfg : AppConfig) (now : Nat) (rateSt : Option RateState)
    (prompt task : String) (backend : String → String → BackendResult)
    (h1 : (check_limit cfg.rate now rateSt).1 = true) (h2 : isBlank prompt = true) :
    mainTrace cfg now rateSt prompt task backend
      = [Event.checkEv true, Event.warnEv "empty_prompt"] := by
  simp only [mainTrace]
  rw [h1, if_neg (by simp), if_pos h2]

/-- Trace of an admitted click whose router call fails. -/
theorem mainTrace_routerError_eq (cfg : AppConfig) (now : Nat) (rateSt : Option RateState)
    (prompt task : String) (backend : String → String → BackendResult)
    (e : RouterError)
    (h1 : (check_limit cfg.rate now rateSt).1 = true) (h2 : isBlank prompt = false)
    (h3 : select cfg.maxCohort cfg.catalog task = Except.error e) :
    mainTrace cfg now rateSt prompt task backend
      = [Event.checkEv true, Event.warnEv "router_exception"] := by
  simp only [mainTrace]
  rw [h1, if_neg (by simp), h2, if_neg (by simp), h3]

/-- Trace of a fully executed click. -/
theorem mainTrace_success_eq (cfg : AppConfig) (now : Nat) (rateSt : Option RateState)
    (prompt task : String) (backend : String → String → BackendResult)
    (cohort : List ModelSpec)
    (h1 : (check_limit cfg.rate now rateSt).1 = true) (h2 : isBlank prompt = false)
    (h3 : select cfg.maxCohort cfg.catalog task = Except.ok cohort) :
    mainTrace cfg now rateSt prompt task backend
      = [Event.checkEv true,
         Event.selectEv (cohort.map ModelSpec.id),
         Event.renderModels (cohort.map ModelSpec.id),
         Event.dispatchEv ((run prompt cfg.deadline cohort backend).map Prod.fst),
         Event.renderColumns (run prompt cfg.deadline cohort backend).length]
        ++ (run prompt cfg.deadline cohort backend).map
            (fun r => Event.renderResponse r.1 r.2.response_text)
        ++ [Event.renderJson, Event.recordEv, Event.renderReportEv] := by
  simp only [mainTrace]
  rw [h1, if_neg (by simp), h2, if_neg (by simp), h3]

/-- The per-response renders are not engine operations. -/
theorem filter_engine_renders (rs : List (String × DispatchOutcome)) :
    (rs.map (fun r => Event.renderResponse r.1 r.2.response_text)).filter isEngineOp
      = [] := by
  induction rs with
  | nil => rfl
  | cons r rest ih => simpa [isEngineOp] using ih

/-- A successful Select (on any raw objective value) yields a non-empty
cohort when the configured maximum is positive. -/
theorem select_ok_nonempty (maxCohort : Nat) (catalog : List ModelSpec)
    (raw : String) (cohort : List ModelSpec) (hmax : 1 ≤ maxCohort)
    (h : select maxCohort catalog raw = Except.ok cohort) : cohort ≠ [] := by
  unfold select at h
  cases hp : parseObjective raw with
  | none => rw [hp] at h; exact absurd h (fun hc => Except.noConfusion hc)
  | some obj => rw [hp] at h; exact selectObj_ok_nonempty maxCohort catalog obj cohort hmax h

/-- C4: For every request for which Admit returns false, no cohort is
selected, no dispatch occurs, and no metrics record is written: the
denial aborts the pipeline (main in src/app.py, lines 171-174) before
any backend work begins. -/
theorem denial_aborts_pipeline (cfg : AppConfig) (now : Nat) (rateSt : Option RateState)
    (prompt task : String) (backend : String → String → BackendResult)
    (h : (check_limit cfg.rate now rateSt).1 = false) :
    mainTrace cfg now rateSt prompt task backend
      = [Event.checkEv false, Event.warnEv "rate_limit_error"]
    ∧ (∀ ids, Event.selectEv ids ∉ mainTrace cfg now rateSt prompt task backend)
    ∧ (∀ ks, Event.dispatchEv ks ∉ mainTrace cfg now rateSt prompt task backend)
    ∧ Event.recordEv ∉ mainTrace cfg now rateSt prompt task backend := by
  have htr := mainTrace_denied_eq cfg now rateSt prompt task backend h
  refine ⟨htr, ?_, ?_, ?_⟩
  · intro ids
    rw [htr]
    simp
  · intro ks
    rw [htr]
    simp
  · rw [htr]
    simp

/-- Witness for C4 at a concrete input: with a zero ceiling the call is
denied and the trace is exactly the denial events. -/
theorem denial_aborts_pipeline_witness :
    mainTrace ⟨⟨0, 10⟩, 3, [⟨"m1", [Tag.GENERAL]⟩], 100⟩ 0 none "hi" "General"
        (fun _ _ => BackendResult.ok "ok" 5)
      = [Event.checkEv false, Event.warnEv "rate_limit_error"] :=
  (denial_aborts_pipeline ⟨⟨0, 10⟩, 3, [⟨"m1", [Tag.GENERAL]⟩], 100⟩ 0 none "hi"
    "General" (fun _ _ => BackendResult.ok "ok" 5) rfl).1

/-- C9: For every executed request, the presentation layer invokes the
four engine operations in the fixed order RateLimiter.Admit, then
ModelRouter.Select, then Dispatcher.Run, then MetricsRecorder.Record —
their subsequence of the trace is exactly those four in order — and
rendering concludes the trace with the report metrics after Record. -/
theorem engine_call_order (cfg : AppConfig) (now : Nat) (rateSt : Option RateState)
    (prompt task : String) (backend : String → String → BackendResult)
    (cohort : List ModelSpec)
    (h1 : (check_limit cfg.rate now rateSt).1 = true) (h2 : isBlank prompt = false)
    (h3 : select cfg.maxCohort cfg.catalog task = Except.ok cohort) :
    (mainTrace cfg now rateSt prompt task backend).filter isEngineOp
      = [Event.checkEv true,
         Event.selectEv (cohort.map ModelSpec.id),
         Event.dispatchEv ((run prompt cfg.deadline cohort backend).map Prod.fst),
         Event.recordEv]
    ∧ (mainTrace cfg now rateSt prompt task backend).getLast?
        = some Event.renderReportEv := by
  have htr := mainTrace_success_eq cfg now rateSt prompt task backend cohort h1 h2 h3
  constructor
  · rw [htr, List.filter_append, List.filter_append, filter_engine_renders]
    simp [isEngineOp]
  · rw [htr, List.getLast?_append_of_ne_nil _ (by simp)]
    rfl

/-- Witness for C9 at a concrete input: one admitted request with prompt
"hi" and objective "General" over a one-model catalog. -/
theorem engine_call_order_witness :
    (mainTrace ⟨⟨5, 10⟩, 3, [⟨"m1", [Tag.GENERAL]⟩], 100⟩ 0 none "hi" "General"
        (fun _ _ => BackendResult.ok "ok" 5)).filter isEngineOp
      = [Event.checkEv true,
         Event.selectEv ["m1"],
         Event.dispatchEv ["m1"],
         Event.recordEv] :=
  (engine_call_order ⟨⟨5, 10⟩, 3, [⟨"m1", [Tag.GENERAL]⟩], 100⟩ 0 none "hi" "General"
    (fun _ _ => BackendResult.ok "ok" 5) [⟨"m1", [Tag.GENERAL]⟩]
    rfl (by decide) rfl).1

/-- C10: For every execution that reaches the results display, the
mapping handed to the visual-comparison rendering is non-empty, so the
column count passed to st.columns (src/app.py line 209) is positive and
the empty-mapping error branch is unreachable (given a positive
configured cohort maximum). -/
theorem render_columns_positive (cfg : AppConfig) (now : Nat) (rateSt : Option RateState)
    (prompt task : String) (backend : String → String → BackendResult)
    (hmax : 1 ≤ cfg.maxCohort) (n : Nat)
    (hmem : Event.renderColumns n ∈ mainTrace cfg now rateSt prompt task backend) :
    0 < n := by
  cases hb : (check_limit cfg.rate now rateSt).1 with
  | false =>
    rw [mainTrace_denied_eq cfg now rateSt prompt task backend hb] at hmem
    simp at hmem
  | true =>
    cases h2 : isBlank prompt with
    | true =>
      rw [mainTrace_emptyPrompt_eq cfg now rateSt prompt task backend hb h2] at hmem
      simp at hmem
    | false =>
      cases h3 : select cfg.maxCohort cfg.catalog task with
      | error e =>
        rw [mainTrace_routerError_eq cfg now rateSt prompt task backend e hb h2 h3] at hmem
        simp at hmem
      | ok cohort =>
        have hlenpos : 0 < (run prompt cfg.deadline cohort backend).length := by
          have hne : cohort ≠ [] :=
            select_ok_nonempty cfg.maxCohort cfg.catalog task cohort hmax h3
          simpa [run] using List.length_pos.2 hne
        rw [mainTrace_success_eq cfg now rateSt prompt task backend cohort hb h2 h3] at hmem
        rcases List.mem_append.1 hmem with hmem | hmem
        · rcases List.mem_append.1 hmem with hmem | hmem
          · simp only [List.mem_cons, List.not_mem_nil, or_false] at hmem
            rcases hmem with h | h | h | h | h
            · exact absurd h (by simp)
            · exact absurd h (by simp)
            · exact absurd h (by simp)
            · exact absurd h (by simp)
            · injection h with hn
              rw [hn]
              exact hlenpos
          · obtain ⟨r, _, hr⟩ := List.mem_map.1 hmem
            exact absurd hr (by simp)
        · simp at hmem

/-- Witness for C10 at a concrete input: the executed trace contains a
renderColumns event with count 1, and that count is positive. -/
theorem render_columns_positive_witness :
    (Event.renderColumns 1 ∈ mainTrace ⟨⟨5, 10⟩, 3, [⟨"m1", [Tag.GENERAL]⟩], 100⟩ 0 none
        "hi" "General" (fun _ _ => BackendResult.ok "ok" 5))
    ∧ 0 < 1 := by
  have hmem : Event.renderColumns 1 ∈ mainTrace ⟨⟨5, 10⟩, 3, [⟨"m1", [Tag.GENERAL]⟩], 100⟩
      0 none "hi" "General" (fun _ _ => BackendResult.ok "ok" 5) := by
    rw [mainTrace_success_eq ⟨⟨5, 10⟩, 3, [⟨"m1", [Tag.GENERAL]⟩], 100⟩ 0 none "hi"
      "General" (fun _ _ => BackendResult.ok "ok" 5) [⟨"m1", [Tag.GENERAL]⟩]
      rfl (by decide) rfl]
    simp [run]
  exact ⟨hmem, render_columns_positive ⟨⟨5, 10⟩, 3, [⟨"m1", [Tag.GENERAL]⟩], 100⟩ 0 none
    "hi" "General" (fun _ _ => BackendResult.ok "ok" 5) (by norm_num) 1 hmem⟩

end LLMNexus
